import Mathlib

/-!
Verification of the interplex rendezvous subsystem.

This file gives a shallow embedding of the rendezvous data model and the
store/client operations of `interplex-rs`:

* `crates/interplex-common/src/identification.rs` — `Discoverability`,
  `NodeIdentifier`, `NodeBuilder`;
* `crates/interplex_common/src/rendezvous/registrations.rs` — the heed-backed
  `Registrations` store (`register`, `deregister`, `poll`, `discover`, `get`);
* `crates/interplex_common/src/rendezvous/client.rs` — the client behaviour
  (`find`, `register`, `send_request`, the peer-cache expiry guard and the
  refresh-timer arithmetic of `handle_response`).

Modelling conventions:
* `PeerId`, `Multiaddr` and CBOR metadata values are opaque strings;
* `DateTime<Utc>` instants and `TimeDelta` durations are integers counting
  milliseconds since the Unix epoch (chrono offers sub-second precision;
  milliseconds are enough to expose every second-granularity truncation the
  code performs).  `timestamp()` is floor division by 1000;
* each heed sub-database (string-keyed, byte-ordered, unique keys) is an
  association list `List (String × v)`; `dbFirst` returns the entry with the
  least key so that list order never matters;
* `Uuid` generation tokens and `OutboundRequestId`s are naturals supplied by
  the caller / threaded through the state, standing for the fresh values the
  code mints.
-/

/-- Byte-wise (= code-point-wise, all keys are ASCII) strict order on char
lists, the order LMDB uses for `Str` keys. -/
def charListLt : List Char → List Char → Bool
  | [], [] => false
  | [], _ :: _ => true
  | _ :: _, [] => false
  | a :: as, b :: bs =>
    if a.toNat < b.toNat then true
    else if b.toNat < a.toNat then false
    else charListLt as bs

/-- Strict order on keys of the embedded databases. -/
def strLt (a b : String) : Bool := charListLt a.data b.data

/-- `p` is a prefix of `s` (heed `prefix_iter` membership test). -/
def strStartsWith (s p : String) : Bool := p.data.isPrefixOf s.data

/-- Point lookup in an association-list database (`Database::get`). -/
def dbGet {v : Type} : List (String × v) → String → Option v
  | [], _ => none
  | (k', x) :: rest, k => if k' = k then some x else dbGet rest k

/-- Insert-or-replace (`Database::put`). -/
def dbPut {v : Type} : List (String × v) → String → v → List (String × v)
  | [], k, x => [(k, x)]
  | (k', x') :: rest, k, x =>
    if k' = k then (k, x) :: rest else (k', x') :: dbPut rest k x

/-- Delete a key if present (`Database::delete`). -/
def dbDel {v : Type} : List (String × v) → String → List (String × v)
  | [], _ => []
  | (k', x') :: rest, k => if k' = k then rest else (k', x') :: dbDel rest k

/-- The entry with the least key (`Database::first` of the byte-ordered
store). -/
def dbFirst {v : Type} : List (String × v) → Option (String × v)
  | [] => none
  | kv :: rest =>
    match dbFirst rest with
    | none => some kv
    | some kv' => if strLt kv'.1 kv.1 then some kv' else some kv

/-- chrono `DateTime::timestamp`: whole Unix seconds of an instant held in
milliseconds, rounding towards negative infinity. -/
def timestampSec (t : Int) : Int := Int.fdiv t 1000

/-- Rust `str::split_once(":")` specialised to the separator used by the
expiry index: split at the first colon. -/
def splitAtColonAux : List Char → Option (List Char × List Char)
  | [] => none
  | c :: rest =>
    if c = ':' then some ([], rest)
    else (splitAtColonAux rest).map (fun pr => (c :: pr.1, pr.2))

/-- `key.split_once(":")` on strings. -/
def splitOnceColon (s : String) : Option (String × String) :=
  (splitAtColonAux s.data).map (fun pr => (String.mk pr.1, String.mk pr.2))

/-- Digit accumulator of `str::parse::<i64>` (overflow ignored: every value
the store writes fits i64). -/
def parseDigitsAux : Nat → List Char → Option Nat
  | acc, [] => some acc
  | acc, c :: rest =>
    if c.isDigit then parseDigitsAux (acc * 10 + (c.toNat - 48)) rest else none

/-- Digit-string parser: empty input is an error. -/
def parseDigits : List Char → Option Nat
  | [] => none
  | l => parseDigitsAux 0 l

/-- Rust `str::parse::<i64>`: optional sign followed by one or more decimal
digits. -/
def parseIntRust (s : String) : Option Int :=
  match s.data with
  | '-' :: rest => (parseDigits rest).map (fun n => -(n : Int))
  | '+' :: rest => (parseDigits rest).map (fun n => (n : Int))
  | l => (parseDigits l).map (fun n => (n : Int))

/-- `identification.rs`: discoverability modes of a node. -/
inductive Discoverability : Type
  | Namespace
  | Group
  | Direct
deriving DecidableEq, Repr

/-- `impl Default for Discoverability` — the mode used when a builder or a
deserialized message leaves the field unset. -/
def Discoverability.default : Discoverability := .Direct

/-- `#[serde(default)]` on `NodeIdentifier::discoverability`: a message that
omits the field decodes to `Discoverability::default()`. -/
def decodeDiscoverability (field : Option Discoverability) : Discoverability :=
  field.getD Discoverability.default

/-- `identification.rs`: `NodeIdentifier`.  `nspace` embeds the Rust field
`namespace` (a Lean keyword); `aliasName` embeds `alias` (a Mathlib command
token); metadata CBOR values are opaque strings. -/
structure NodeIdentifier : Type where
  peer_id : String
  nspace : String
  aliasName : Option String
  group : Option String
  metadata : List (String × String)
  discoverability : Discoverability
deriving DecidableEq, Repr

/-- `NodeIdentifier::group()`: the group, defaulting to `"default"`. -/
def NodeIdentifier.groupd (n : NodeIdentifier) : String :=
  n.group.getD "default"

/-- `NodeIdentifier::key()`: `format!("{}/{}::{}", namespace, group(),
peer_id)`. -/
def NodeIdentifier.key (n : NodeIdentifier) : String :=
  n.nspace ++ "/" ++ n.groupd ++ "::" ++ n.peer_id

/-- `identification.rs`: the derive_builder state of `NodeBuilder` — each
field optional until `build`. -/
structure NodeBuilder : Type where
  peer_id : Option String
  nspace : Option String
  aliasName : Option (Option String)
  group : Option (Option String)
  metadata : Option (List (String × String))
  discoverability : Option Discoverability
deriving DecidableEq, Repr

/-- `NodeBuilder::new(namespace)`; the `PeerId::random()` result is passed in
as `pid`. -/
def NodeBuilder.new (ns pid : String) : NodeBuilder where
  peer_id := some pid
  nspace := some ns
  aliasName := none
  group := none
  metadata := some []
  discoverability := some Discoverability.default

/-- `registrations.rs`: a stored registration. -/
structure Registration : Type where
  identity : NodeIdentifier
  addresses : List String
  last_registration : Int
  ttl : Int
deriving DecidableEq, Repr

/-- `Registration::expiration()`. -/
def Registration.expiration (r : Registration) : Int :=
  r.last_registration + r.ttl

/-- The two heed sub-databases of `Registrations`: `registrations` maps
locator key → registration, `expirations` maps `"<unix_ts>:<key>"` → key. -/
structure Registrations : Type where
  registrations : List (String × Registration)
  expirations : List (String × String)
deriving DecidableEq, Repr

/-- `Registrations::register(node, addresses, ttl)` at instant `now`
(`Utc::now()` in the code): update-or-create the registration, delete the
superseded expiry entry, insert the fresh one, write the registration. -/
def Registrations.register (s : Registrations) (node : NodeIdentifier)
    (addresses : List String) (ttl : Int) (now : Int) :
    Registrations × Registration :=
  let createdLast : Registration × Option Int :=
    match dbGet s.registrations node.key with
    | some reg =>
      ({ reg with
          addresses := addresses
          identity := { reg.identity with
            discoverability := node.discoverability
            aliasName := node.aliasName
            metadata := node.metadata }
          last_registration := now
          ttl := ttl },
        some (timestampSec reg.last_registration))
    | none =>
      ({ identity := node, addresses := addresses,
         last_registration := now, ttl := ttl }, none)
  let created := createdLast.1
  let edb0 :=
    match createdLast.2 with
    | some exp => dbDel s.expirations (toString exp ++ ":" ++ node.key)
    | none => s.expirations
  let edb1 :=
    dbPut edb0 (toString (timestampSec now) ++ ":" ++ node.key) node.key
  let rdb1 := dbPut s.registrations created.identity.key created
  ({ registrations := rdb1, expirations := edb1 }, created)

/-- `Registrations::deregister(node)`: delete the registration only — the
expiry index is untouched. -/
def Registrations.deregister (s : Registrations) (node : NodeIdentifier) :
    Registrations :=
  { s with registrations := dbDel s.registrations node.key }

/-- `Registrations::poll(expiration)` at instant `now`: inspect the first
expiry entry; if its timestamp prefix plus the ttl is before `now`, delete
the expiry entry, and — note the code passes `expired_key`, not
`expired_value`, to `rdb.delete` — delete *the expiry key* from the
registrations database and return the looked-up registration. -/
def Registrations.poll (s : Registrations) (expiration : Int) (now : Int) :
    Registrations × Option Registration :=
  let expired : Option (String × String) :=
    match dbFirst s.expirations with
    | some (key, value) =>
      match splitOnceColon key with
      | some (last_reg, _) =>
        match parseIntRust last_reg with
        | some ts =>
          if ts * 1000 + expiration < now then some (key, value) else none
        | none => none
      | none => none
    | none => none
  match expired with
  | some (expired_key, expired_value) =>
    let edb1 := dbDel s.expirations expired_key
    match dbGet s.registrations expired_value with
    | some reg =>
      ({ registrations := dbDel s.registrations expired_key,
         expirations := edb1 }, some reg)
    | none => ({ s with expirations := edb1 }, none)
  | none => (s, none)

/-- `Registrations::discover(node, group)`: prefix-iterate the registrations
database, skip the requester's own key, filter by discoverability. -/
def Registrations.discover (s : Registrations) (node : NodeIdentifier)
    (group : Option String) : List Registration :=
  let pfx :=
    match group with
    | some g => node.nspace ++ "/" ++ g ++ "/"
    | none => node.nspace ++ "/"
  (s.registrations.filter (fun kv => strStartsWith kv.1 pfx)).filterMap
    (fun kv =>
      if node.key = kv.1 then none
      else
        match kv.2.identity.discoverability with
        | .Namespace => some kv.2
        | .Group =>
          if kv.2.identity.groupd = node.groupd then some kv.2 else none
        | .Direct => none)

/-- `Registrations::get(key)`: point lookup, no discoverability filter. -/
def Registrations.get (s : Registrations) (key : String) : Option Registration :=
  match dbGet s.registrations key with
  | some result => some result
  | none => none

/-- Number of registrations stored under locator key `k`. -/
def Registrations.regCount (s : Registrations) (k : String) : Nat :=
  (s.registrations.filter (fun kv => kv.1 == k)).length

/-- Number of expiry-index entries whose value is locator key `k`. -/
def Registrations.expCount (s : Registrations) (k : String) : Nat :=
  (s.expirations.filter (fun kv => kv.2 == k)).length

/-- One expiry entry is in lockstep with the primary store: whenever its
value key resolves to a registration and its own key parses as
`"<ts>:<rest>"`, the parsed `ts` is that registration's `last_registration`
truncated to whole Unix seconds. -/
def Registrations.lockstepEntry (s : Registrations) (kv : String × String) :
    Bool :=
  match dbGet s.registrations kv.2, splitOnceColon kv.1 with
  | some reg, some pr =>
    match parseIntRust pr.1 with
    | some ts => ts == timestampSec reg.last_registration
    | none => true
  | _, _ => true

/-- `error.rs` (interplex_common): the error variants the client paths under
verification produce. -/
inductive InterplexError : Type
  | NotFound (key : String)
  | Wrapped (reason : String)
  | NodeInaccessible
  | RequestDispatch (peer : String) (nspace : String) (command : String)
deriving DecidableEq, Repr

/-- `message.rs`: `RendezvousCommand`. -/
inductive RendezvousCommand : Type
  | Register (addresses : List String)
  | Deregister
  | Discover (group : Option String)
  | Find (key : String)
  | Groups
deriving DecidableEq, Repr

/-- `message.rs`: `RendezvousRequest`. -/
structure RendezvousRequest : Type where
  source : NodeIdentifier
  command : RendezvousCommand
deriving DecidableEq, Repr

namespace Client

/-- `client.rs`: `REGISTRATION_BUFFER = TimeDelta::minutes(1)`, in
milliseconds. -/
def REGISTRATION_BUFFER : Int := 60 * 1000

/-- chrono `TimeDelta::to_std()`: converts to an unsigned `std` duration,
failing when the delta is negative (the `.expect` in `handle_response`
panics on that failure). -/
def timeDeltaToStd (d : Int) : Option Nat :=
  if d < 0 then none else some d.toNat

/-- The refresh-timer duration `handle_response` computes on a successful
`Register` response carrying absolute expiration `expiration`:
`(expiration - now - REGISTRATION_BUFFER).to_std().expect(..)
   .max(Duration::from_secs(0))`.
`none` models the `.expect` panic: `to_std` runs *before* the clamp. -/
def refreshTimerDelay (expiration now : Int) : Option Nat :=
  (timeDeltaToStd (expiration - now - REGISTRATION_BUFFER)).map
    (fun d => max d 0)

/-- Modelled from the spec: "The client arms a timer for
`max(0, expiration − now − REGISTRATION_BUFFER)`" (§4.4 Refresh timing) —
the clamped, total duration the spec promises. -/
def specRefreshTimerDelay (expiration now : Int) : Int :=
  max 0 (expiration - now - REGISTRATION_BUFFER)

/-- `client.rs`: `Behaviour::find` — the locator string the client resolves
for a `(namespace, group, peer_id)` triple:
`format!("{}/{}/{}", namespace, group, peer_id)`. -/
def findKey (ns group pid : String) : String :=
  ns ++ "/" ++ group ++ "/" ++ pid

/-- A value of the client peer cache `peers`:
`(rendezvous node id, registration snapshot, generation token)`. -/
structure PeerEntry : Type where
  rdv : String
  registration : Registration
  token : Nat
deriving DecidableEq, Repr

/-- `handle_response` (Discover / Find success): insert the discovered peer
with a fresh `Uuid` token, superseding any previous entry. -/
def insertPeer (peers : List (String × PeerEntry)) (pid rdv : String)
    (reg : Registration) (freshTok : Nat) : List (String × PeerEntry) :=
  dbPut peers pid ⟨rdv, reg, freshTok⟩

/-- `Behaviour::poll`, `expiring_peers` branch: a peer-expiry timer resolved
with captured token `tok` for peer `p`.  The entry is removed and a
`PeerExpired`-event payload produced only when the captured token still
equals the entry's current token; otherwise the firing is a no-op. -/
def pollExpiredPeer (peers : List (String × PeerEntry)) (p : String)
    (tok : Nat) : List (String × PeerEntry) × Option (String × Registration) :=
  match dbGet peers p with
  | some e =>
    if e.token = tok then (dbDel peers p, some (e.rdv, e.registration))
    else (peers, none)
  | none => (peers, none)

/-- The client behaviour state touched by `register` / `send_request`:
external addresses, the request-tracking map, and (model bookkeeping) the
next fresh request id plus the log of wire requests actually handed to the
inner request/response behaviour. -/
structure State : Type where
  identity : NodeIdentifier
  addresses : List String
  processing_requests : List (Nat × String × RendezvousCommand)
  next_request_id : Nat
  sent_requests : List (Nat × String × RendezvousRequest)
deriving DecidableEq, Repr

/-- `Behaviour::send_request`: hand one request to the inner behaviour and
record it in `processing_requests`. -/
def sendRequest (st : State) (target : String) (cmd : RendezvousCommand) :
    State × Nat :=
  let rid := st.next_request_id
  ({ st with
      next_request_id := rid + 1
      sent_requests :=
        st.sent_requests ++ [(rid, target, ⟨st.identity, cmd⟩)]
      processing_requests :=
        st.processing_requests ++ [(rid, target, cmd)] }, rid)

/-- `Behaviour::register`: issue a `Register` carrying the current external
addresses when there is at least one, otherwise fail locally with
`NodeInaccessible` sending nothing. -/
def register (st : State) (target : String) :
    State × Except InterplexError Nat :=
  if st.addresses.length > 0 then
    let res := sendRequest st target (.Register st.addresses)
    (res.1, .ok res.2)
  else
    (st, .error .NodeInaccessible)

end Client

/-! ### Concrete scenario data (spec §8)

`nodeA`/`nodeB`/`nodeC` are the S1/S2 nodes: one namespace `"n"`, groups
`"g"`/`"h"`/`"g"`, modes `Namespace`/`Namespace`/`Group`. -/

/-- Node A of scenarios S1/S2/S6. -/
def nodeA : NodeIdentifier :=
  { peer_id := "pA", nspace := "n", aliasName := none, group := some "g",
    metadata := [], discoverability := .Namespace }

/-- Node B of scenario S2. -/
def nodeB : NodeIdentifier :=
  { peer_id := "pB", nspace := "n", aliasName := none, group := some "h",
    metadata := [], discoverability := .Namespace }

/-- Node C of scenario S2. -/
def nodeC : NodeIdentifier :=
  { peer_id := "pC", nspace := "n", aliasName := none, group := some "g",
    metadata := [], discoverability := .Group }

/-- The store after A registered (scenario S2, first step). -/
def storeA : Registrations :=
  (Registrations.register ⟨[], []⟩ nodeA ["aA"] 3600000 0).1

/-- B's stored registration in scenario S2. -/
def regB2 : Registration :=
  (Registrations.register storeA nodeB ["aB"] 3600000 0).2

/-- The store of scenario S2: A, B and C registered in namespace `"n"`. -/
def storeS2 : Registrations :=
  (Registrations.register
    ((Registrations.register storeA nodeB ["aB"] 3600000 0).1)
    nodeC ["aC"] 3600000 0).1

/-- Scenario S6 store: only A, registered at t = 0 with ttl 1 s. -/
def storeS6 : Registrations :=
  (Registrations.register ⟨[], []⟩ nodeA ["aA"] 1000 0).1

/-- A's stored registration in scenario S6. -/
def regA6 : Registration :=
  (Registrations.register ⟨[], []⟩ nodeA ["aA"] 1000 0).2

/-- A store reached by register(A, t=0s) · deregister(A) · register(A,
t=100s): the deregister orphans the expiry entry `"0:<key>"`, the second
register adds `"100:<key>"`, so the earliest expiry entry is stale. -/
def storeStale : Registrations :=
  (Registrations.register (Registrations.deregister storeS6 nodeA)
    nodeA ["aA"] 1000 100000).1

/-- The registration stored in `storeStale` (`last_registration` = 100 s). -/
def regStale : Registration :=
  (Registrations.register (Registrations.deregister storeS6 nodeA)
    nodeA ["aA"] 1000 100000).2

/-! ### Helper lemmas on the database model -/

/-- A fresh `dbPut` is found again by `dbGet`. -/
theorem dbGet_dbPut {v : Type} (db : List (String × v)) (k : String) (x : v) :
    dbGet (dbPut db k x) k = some x := by
  induction db with
  | nil => simp [dbPut, dbGet]
  | cons hd tl ih =>
    obtain ⟨k', x'⟩ := hd
    by_cases hk : k' = k
    · simp [dbPut, dbGet, hk]
    · simp [dbPut, dbGet, hk, ih]

/-- `dbFirst` returns an entry of the database. -/
theorem dbFirst_mem {v : Type} {db : List (String × v)} {kv : String × v}
    (h : dbFirst db = some kv) : kv ∈ db := by
  induction db generalizing kv with
  | nil => simp [dbFirst] at h
  | cons hd tl ih =>
    rw [dbFirst] at h
    cases hfst : dbFirst tl with
    | none =>
      rw [hfst] at h
      injection h with h
      exact h ▸ List.mem_cons_self hd tl
    | some kv' =>
      rw [hfst] at h
      by_cases hlt : strLt kv'.1 hd.1
      · simp only [hlt, if_true] at h
        injection h with h
        exact List.mem_cons_of_mem hd (ih (h ▸ hfst))
      · simp only [hlt, if_false] at h
        injection h with h
        exact h ▸ List.mem_cons_self hd tl

/-- Characterisation of a successful `poll`: it found a first expiry entry
whose timestamp prefix parses and satisfies the guard, and whose value key
resolved in the primary store to the returned registration. -/
theorem poll_some_shape {s : Registrations} {ttl now : Int} {r : Registration}
    (h : (Registrations.poll s ttl now).2 = some r) :
    ∃ ek ev p rest ts,
      dbFirst s.expirations = some (ek, ev)
      ∧ splitOnceColon ek = some (p, rest)
      ∧ parseIntRust p = some ts
      ∧ ts * 1000 + ttl < now
      ∧ dbGet s.registrations ev = some r := by
  unfold Registrations.poll at h
  cases hfst : dbFirst s.expirations with
  | none =>
    simp only [hfst] at h
    exact Option.noConfusion h
  | some kv =>
    obtain ⟨ek, ev⟩ := kv
    simp only [hfst] at h
    cases hsplit : splitOnceColon ek with
    | none =>
      simp only [hsplit] at h
      exact Option.noConfusion h
    | some pr =>
      obtain ⟨p, rest⟩ := pr
      simp only [hsplit] at h
      cases hparse : parseIntRust p with
      | none =>
        simp only [hparse] at h
        exact Option.noConfusion h
      | some ts =>
        simp only [hparse] at h
        by_cases hlt : ts * 1000 + ttl < now
        · simp only [hlt, if_true] at h
          cases hget : dbGet s.registrations ev with
          | none =>
            simp only [hget] at h
            exact Option.noConfusion h
          | some reg =>
            simp only [hget, Option.some.injEq] at h
            exact ⟨ek, ev, p, rest, ts, rfl, hsplit, hparse, hlt, h ▸ hget⟩
        · simp only [hlt, if_false] at h
          exact Option.noConfusion h

/-- Characterisation of a `discover` result: it is the value of a stored
entry whose key differs from the requester's, its mode is never `Direct`,
and mode `Group` entails the requester's group. -/
theorem discover_result_shape {s : Registrations} {node : NodeIdentifier}
    {group : Option String} {r : Registration}
    (hmem : r ∈ Registrations.discover s node group) :
    ∃ kv, kv ∈ s.registrations ∧ r = kv.2 ∧ node.key ≠ kv.1
      ∧ r.identity.discoverability ≠ .Direct
      ∧ (r.identity.discoverability = .Group →
          r.identity.groupd = node.groupd) := by
  unfold Registrations.discover at hmem
  rw [List.mem_filterMap] at hmem
  obtain ⟨kv, hkv, hf⟩ := hmem
  have hkvmem : kv ∈ s.registrations := (List.mem_filter.mp hkv).1
  by_cases hne : node.key = kv.1
  · simp only [hne, if_true] at hf
    exact Option.noConfusion hf
  · simp only [hne, if_false] at hf
    cases hd : kv.2.identity.discoverability with
    | Namespace =>
      simp only [hd, Option.some.injEq] at hf
      subst hf
      exact ⟨kv, hkvmem, rfl, hne, by simp [hd], by simp [hd]⟩
    | Group =>
      simp only [hd] at hf
      by_cases hg : kv.2.identity.groupd = node.groupd
      · simp only [hg, if_true, Option.some.injEq] at hf
        subst hf
        exact ⟨kv, hkvmem, rfl, hne, by simp [hd], fun _ => hg⟩
      · simp only [hg, if_false] at hf
        exact Option.noConfusion hf
    | Direct =>
      simp only [hd] at hf
      exact Option.noConfusion hf

/-! ### Claim theorems -/

/-- C1: the claim is false on the code.  `NodeIdentifier::key()` joins the
three components as `"<namespace>/<group>::<peer_id>"` — a `"::"` before the
peer id, not `'/'` — while the client's `find` resolves
`"<namespace>/<group>/<peer_id>"`.  For namespace `"n"`, group `"g"`, peer
`"pA"`: the storage key is `"n/g::pA"`, `find`'s key is `"n/g/pA"`, the two
differ, `register` stores under `"n/g::pA"`, and a `get` at `find`'s key
misses the stored registration. -/
theorem c1_locator_key_mismatch :
    nodeA.key = "n/g::pA"
    ∧ Client.findKey "n" "g" "pA" = "n/g/pA"
    ∧ nodeA.key ≠ Client.findKey "n" "g" "pA"
    ∧ (Registrations.register ⟨[], []⟩ nodeA ["aA"] 3600000 0).1.registrations
        = [("n/g::pA", (Registrations.register ⟨[], []⟩ nodeA ["aA"] 3600000 0).2)]
    ∧ Registrations.get
        (Registrations.register ⟨[], []⟩ nodeA ["aA"] 3600000 0).1
        (Client.findKey "n" "g" "pA") = none := by decide

/-- C2: the claim is false on the code.  In scenario S2 (A: group `"g"`
mode `Namespace`; B: group `"h"` mode `Namespace`; C: group `"g"` mode
`Group`; one namespace `"n"`), A's `Discover(Some "g")` returns `[]` — the
prefix `"n/g/"` never matches stored keys of the form `"n/g::peer"` — while
the ungrouped `Discover(None)` (prefix `"n/"`) does return `[B, C]`. -/
theorem c2_group_discover_returns_nothing :
    (Registrations.discover storeS2 nodeA (some "g")) = []
    ∧ (Registrations.discover storeS2 nodeA none).map
        (fun r => r.identity.peer_id) = ["pB", "pC"] := by decide

/-- C3: the claim is false on the code.  Scenario S6: only A is stored
(registered at t = 0 s, ttl 1 s); `poll` at t = 2 s returns A and deletes
the expiry entry, and a second `poll` returns none — but the registration
is still in the primary store (`get(A.key())` returns A, not none), because
`poll` passes the expiry key `"0:n/g::pA"` instead of the locator key to
the registrations-database delete. -/
theorem c3_poll_keeps_registration :
    (Registrations.poll storeS6 1000 2000).2 = some regA6
    ∧ (Registrations.poll (Registrations.poll storeS6 1000 2000).1
        1000 2000).2 = none
    ∧ Registrations.get (Registrations.poll storeS6 1000 2000).1 nodeA.key
        = some regA6 := by decide

/-- C4: the claim is false on the code.  Starting from the lockstep
single-registration store of S6 (counts 1 / 1 for A's key), a successful
`poll` leaves counts 1 / 0 (the registration survives, its expiry entry is
gone), and a `deregister` leaves counts 0 / 1 (the expiry entry is
orphaned): the two sub-databases do not stay in lockstep. -/
theorem c4_lockstep_violated :
    (Registrations.regCount storeS6 nodeA.key = 1
      ∧ Registrations.expCount storeS6 nodeA.key = 1)
    ∧ (Registrations.regCount (Registrations.poll storeS6 1000 2000).1
        nodeA.key = 1
      ∧ Registrations.expCount (Registrations.poll storeS6 1000 2000).1
        nodeA.key = 0)
    ∧ (Registrations.regCount (Registrations.deregister storeS6 nodeA)
        nodeA.key = 0
      ∧ Registrations.expCount (Registrations.deregister storeS6 nodeA)
        nodeA.key = 1) := by decide

/-- C5, counterexample: the claim quantifies over every store state, but in
`storeStale` — reached by register(A, t=0 s) · deregister(A) ·
register(A, t=100 s), so the orphaned expiry entry `"0:n/g::pA"` is still
first — `poll(1 s)` at t = 5 s returns the current registration of A whose
truncated `last_registration` (100 s) plus the ttl is ≥ now. -/
theorem c5_poll_returns_fresh_registration :
    (Registrations.poll storeStale 1000 5000).2 = some regStale
    ∧ timestampSec regStale.last_registration * 1000 + 1000 ≥ 5000 := by
  decide

/-- C5, amended: in every store state whose expiry-index entries are in
lockstep with the primary store — each entry whose value key resolves to a
stored registration carries, as its parsed timestamp prefix, that
registration's `last_registration` truncated to whole Unix seconds —
`poll(ttl)` never returns a registration whose truncated
`last_registration` plus ttl is ≥ the current time. -/
theorem c5_expiry_monotonic_in_lockstep (s : Registrations) (ttl now : Int)
    (hls : s.expirations.all (Registrations.lockstepEntry s) = true)
    (r : Registration) (h : (Registrations.poll s ttl now).2 = some r) :
    timestampSec r.last_registration * 1000 + ttl < now := by
  obtain ⟨ek, ev, p, rest, ts, hfst, hsplit, hparse, hlt, hget⟩ :=
    poll_some_shape h
  have hmem : (ek, ev) ∈ s.expirations := dbFirst_mem hfst
  have hentry : Registrations.lockstepEntry s (ek, ev) = true :=
    List.all_eq_true.mp hls _ hmem
  unfold Registrations.lockstepEntry at hentry
  simp only [hget, hsplit, hparse, beq_iff_eq] at hentry
  rwa [hentry] at hlt

/-- Witness for the amended C5: the lockstep store of scenario S6 polled at
t = 2 s returns A's registration, whose truncated registration second (0)
times 1000 plus the 1 s ttl is indeed before now. -/
theorem c5_expiry_monotonic_in_lockstep_witness :
    storeS6.expirations.all (Registrations.lockstepEntry storeS6) = true
    ∧ (Registrations.poll storeS6 1000 2000).2 = some regA6
    ∧ timestampSec regA6.last_registration * 1000 + 1000 < 2000 :=
  ⟨by decide, by decide,
    c5_expiry_monotonic_in_lockstep storeS6 1000 2000 (by decide) regA6
      (by decide)⟩

/-- C6: the claim is false on the code.  On a `Register` success carrying
absolute expiration `E`, `handle_response` computes
`(E − now − REGISTRATION_BUFFER).to_std().expect(..).max(0)`: the
`to_std()` conversion runs *before* the clamp and fails for a negative
delta, so for `E − now < REGISTRATION_BUFFER` (here `E = now = 1000 ms`)
the handler panics (`none`) instead of arming a zero-duration timer as the
spec's `max(0, E − now − buffer)` promises; with `E − now − buffer =
60000 ≥ 0` the timer is armed for that duration as claimed. -/
theorem c6_refresh_timer_not_clamped :
    Client.refreshTimerDelay 1000 1000 = none
    ∧ Client.specRefreshTimerDelay 1000 1000 = 0
    ∧ Client.refreshTimerDelay 120000 0 = some 60000
    ∧ Client.specRefreshTimerDelay 120000 0 = 60000 := by decide

/-- C7: for every store state, requester and group argument, a `discover`
result never has discoverability `Direct`, has its group equal to the
requester's whenever its discoverability is `Group`, and — in any store
whose entries are stored under their own locator key, as `register`
maintains — never is the requester's own registration (its locator key
differs from the requester's). -/
theorem c7_discover_filter (s : Registrations) (node : NodeIdentifier)
    (group : Option String) (r : Registration)
    (hmem : r ∈ Registrations.discover s node group)
    (hwf : ∀ kv ∈ s.registrations, (kv.2).identity.key = kv.1) :
    r.identity.discoverability ≠ .Direct
    ∧ (r.identity.discoverability = .Group →
        r.identity.groupd = node.groupd)
    ∧ r.identity.key ≠ node.key := by
  obtain ⟨kv, hkvmem, hreq, hne, hdir, hgrp⟩ := discover_result_shape hmem
  refine ⟨hdir, hgrp, ?_⟩
  rw [hreq, hwf kv hkvmem]
  exact fun hcon => hne hcon.symm

/-- Witness for C7: in scenario S2, B's stored registration is in A's
ungrouped discover result and carries a locator key different from A's. -/
theorem c7_discover_filter_witness :
    (regB2 ∈ Registrations.discover storeS2 nodeA none)
    ∧ regB2.identity.key ≠ nodeA.key :=
  ⟨by decide,
    (c7_discover_filter storeS2 nodeA none regB2 (by decide) (by decide)).2.2⟩

/-- C8: a peer-cache timer that fires with a captured generation token no
longer matching the entry's current token is a no-op — after an entry for
peer `p` is superseded by an insertion carrying a fresh token, resolving
the earlier timer leaves the cache unchanged and emits no `PeerExpired`
payload. -/
theorem c8_stale_timer_noop (peers : List (String × Client.PeerEntry))
    (p rdv : String) (reg : Registration) (oldTok newTok : Nat)
    (hne : newTok ≠ oldTok) :
    Client.pollExpiredPeer (Client.insertPeer peers p rdv reg newTok) p
      oldTok = (Client.insertPeer peers p rdv reg newTok, none) := by
  unfold Client.pollExpiredPeer Client.insertPeer
  rw [dbGet_dbPut]
  simp [hne]

/-- Witness for C8: a concrete supersession (token 1 over a timer that
captured token 0) fires as a no-op. -/
theorem c8_stale_timer_noop_witness :
    (1 ≠ 0)
    ∧ Client.pollExpiredPeer (Client.insertPeer [] "p" "rdv" regA6 1) "p" 0
        = (Client.insertPeer [] "p" "rdv" regA6 1, none) :=
  ⟨by decide, c8_stale_timer_noop [] "p" "rdv" regA6 0 1 (by decide)⟩

/-- C9: with no external addresses, `register` fails locally with
`NodeInaccessible`, sending nothing and leaving the whole state (in
particular `processing_requests`) untouched; with at least one external
address it hands exactly one `Register` request carrying the current
addresses to the inner behaviour and tracks it. -/
theorem c9_register_requires_address (st : Client.State) (target : String) :
    (st.addresses = [] →
      Client.register st target =
        (st, Except.error InterplexError.NodeInaccessible))
    ∧ (st.addresses ≠ [] →
      Client.register st target =
        ({ st with
            next_request_id := st.next_request_id + 1
            sent_requests := st.sent_requests ++ [(st.next_request_id,
              target, ⟨st.identity, .Register st.addresses⟩)]
            processing_requests := st.processing_requests ++
              [(st.next_request_id, target, .Register st.addresses)] },
          Except.ok st.next_request_id)) := by
  constructor
  · intro h
    simp [Client.register, h]
  · intro h
    have hlen : 0 < st.addresses.length := List.length_pos.mpr h
    simp [Client.register, Client.sendRequest, hlen]

/-- A client state with no external addresses. -/
def stNoAddr : Client.State := ⟨nodeA, [], [], 0, []⟩

/-- A client state with one external address. -/
def stAddr : Client.State := ⟨nodeA, ["m1"], [], 0, []⟩

/-- Witness for C9: both branches at concrete states. -/
theorem c9_register_requires_address_witness :
    (stNoAddr.addresses = []
      ∧ Client.register stNoAddr "t" =
          (stNoAddr, Except.error InterplexError.NodeInaccessible))
    ∧ (stAddr.addresses ≠ []
      ∧ Client.register stAddr "t" =
          ({ stAddr with
              next_request_id := stAddr.next_request_id + 1
              sent_requests := stAddr.sent_requests ++
                [(stAddr.next_request_id, "t",
                  ⟨stAddr.identity, .Register stAddr.addresses⟩)]
              processing_requests := stAddr.processing_requests ++
                [(stAddr.next_request_id, "t",
                  .Register stAddr.addresses)] },
            Except.ok stAddr.next_request_id)) :=
  ⟨⟨rfl, (c9_register_requires_address stNoAddr "t").1 rfl⟩,
    ⟨by decide, (c9_register_requires_address stAddr "t").2 (by decide)⟩⟩

/-- C10: the default discoverability — used by `NodeBuilder::new` and by the
`#[serde(default)]` decoding of a message omitting the field — is `Direct`,
not `Namespace`; consequently such a peer never appears in any `discover`
result (every result has non-`Direct` mode), while the `Find` path's point
lookup returns any stored registration with no discoverability filter. -/
theorem c10_default_direct (ns pid : String) (s : Registrations)
    (node : NodeIdentifier) (group : Option String) (r : Registration)
    (hmem : r ∈ Registrations.discover s node group) :
    Discoverability.default = .Direct
    ∧ (NodeBuilder.new ns pid).discoverability = some .Direct
    ∧ decodeDiscoverability none = .Direct
    ∧ r.identity.discoverability ≠ .Direct
    ∧ ∀ (s' : Registrations) (k : String) (reg : Registration),
        dbGet s'.registrations k = some reg →
        Registrations.get s' k = some reg := by
  obtain ⟨_, _, _, _, hdir, _⟩ := discover_result_shape hmem
  refine ⟨rfl, rfl, rfl, hdir, ?_⟩
  intro s' k reg hg
  unfold Registrations.get
  rw [hg]

/-- Witness for C10: B's registration is an S2 discover result, and its
discoverability is not `Direct`. -/
theorem c10_default_direct_witness :
    (regB2 ∈ Registrations.discover storeS2 nodeA none)
    ∧ regB2.identity.discoverability ≠ .Direct :=
  ⟨by decide,
    (c10_default_direct "n" "p" storeS2 nodeA none regB2
      (by decide)).2.2.2.1⟩
